import Mathlib

/-!
Verification of the Decaying P-Score adaptive difficulty controller
(`src/adaptive_engine.py`) and the puzzle generator's validation logic
(`src/puzzle_generator.py`), as a shallow embedding: scores are exact
rationals, the mutable engine object becomes explicit state passing,
and the random draws of the puzzle generator are explicit parameters.
-/

namespace AdaptiveLogic

/-- The ordered difficulty levels, `self.difficulty_levels` in
`AdaptiveEngine.__init__`. -/
def difficulty_levels : List String := ["Easy", "Medium", "Hard"]

/-- The decay factor 0.9, `self.decay_factor` in `AdaptiveEngine.__init__`. -/
def decay_factor : ℚ := 9 / 10

/-- The mutable state of `AdaptiveEngine`: the P-Score `self.p_score`
and the difficulty index `self.current_difficulty_index`. -/
structure AdaptiveEngine where
  p_score : ℚ
  current_difficulty_index : ℕ
  deriving DecidableEq

/-- The state built by `AdaptiveEngine.__init__`: score 0.0, index 0 (Easy). -/
def initEngine : AdaptiveEngine := ⟨0, 0⟩

/-- The `current_difficulty` property: `self.difficulty_levels[index]`.
Python would raise IndexError past the end of the list; the embedding
returns "" there, which is irrelevant on states whose index is in range
(the invariant proved below). -/
def current_difficulty (e : AdaptiveEngine) : String :=
  difficulty_levels.getD e.current_difficulty_index ""

/-- `AdaptiveEngine._check_difficulty_transition`: returns the updated
state together with the `transition_occurred` flag. -/
def check_difficulty_transition (e : AdaptiveEngine) : AdaptiveEngine × Bool :=
  if e.p_score ≥ 5 ∧ e.current_difficulty_index < difficulty_levels.length - 1 then
    (⟨0, e.current_difficulty_index + 1⟩, true)
  else if e.p_score ≤ -3 ∧ e.current_difficulty_index > 0 then
    (⟨0, e.current_difficulty_index - 1⟩, true)
  else
    (e, false)

/-- The dict returned by `AdaptiveEngine.update_performance`.
Fields in source order: `old_score`, `new_score`, `score_change`,
`old_difficulty`, `new_difficulty`, `transition_occurred`, `rationale`. -/
structure UpdateResult where
  old_score : ℚ
  new_score : ℚ
  score_change : ℚ
  old_difficulty : String
  new_difficulty : String
  transition_occurred : Bool
  rationale : String
  deriving DecidableEq

/-- `AdaptiveEngine.update_performance`: apply the reward/penalty branch,
decay by 0.9, run the transition check, and build the result dict.
Returns the updated state together with the result. -/
def update_performance (e : AdaptiveEngine) (is_correct : Bool)
    (response_time : ℚ) : AdaptiveEngine × UpdateResult :=
  let old_score := e.p_score
  let old_difficulty := current_difficulty e
  let scored : ℚ × String :=
    if is_correct then
      if response_time ≤ 5 then
        (e.p_score + 2, "High Fluency - Correct answer with quick response")
      else
        (e.p_score + 1, "Accuracy - Correct but slow response")
    else
      (e.p_score - 3, "Inaccurate - Incorrect answer indicates knowledge gap")
  let decayed : AdaptiveEngine :=
    ⟨scored.1 * decay_factor, e.current_difficulty_index⟩
  let checked := check_difficulty_transition decayed
  (checked.1,
    ⟨old_score, checked.1.p_score, checked.1.p_score - old_score * decay_factor,
      old_difficulty, current_difficulty checked.1, checked.2, scored.2⟩)

/-- Run a whole session: fold `update_performance` over a list of
(is_correct, response_time) outcomes. -/
def run (e : AdaptiveEngine) : List (Bool × ℚ) → AdaptiveEngine
  | [] => e
  | o :: rest => run (update_performance e o.1 o.2).1 rest

/-- Round-half-to-even of a rational to an integer, modelling Python's
`round` tie behaviour. -/
def round_half_even (q : ℚ) : ℤ :=
  if q - (Int.floor q : ℚ) < 1 / 2 then Int.floor q
  else if q - (Int.floor q : ℚ) > 1 / 2 then Int.floor q + 1
  else if Int.floor q % 2 = 0 then Int.floor q else Int.floor q + 1

/-- Python's `round(x, 2)`: round to two decimal places. -/
def round2 (q : ℚ) : ℚ := (round_half_even (q * 100) : ℚ) / 100

/-- The dict returned by `AdaptiveEngine.get_status`. -/
structure Status where
  p_score : ℚ
  difficulty : String
  difficulty_index : ℕ
  increase_threshold : ℚ
  decrease_threshold : ℚ
  deriving DecidableEq

/-- `AdaptiveEngine.get_status`. -/
def get_status (e : AdaptiveEngine) : Status :=
  ⟨round2 e.p_score, current_difficulty e, e.current_difficulty_index, 5, -3⟩

/-- The dict returned by `PuzzleGenerator.generate_puzzle`. -/
structure Puzzle where
  question : String
  answer : ℤ
  difficulty : String
  deriving DecidableEq

/-- The random draws consumed by the three puzzle body functions.
`random.choice` / `random.randint` results are passed in explicitly;
the ranges the source requests from `random` are properties of the
random source, not of the body functions, and are not modelled. -/
structure RandomDraws where
  easy_op_is_add : Bool
  easy_a : ℤ
  easy_b : ℤ
  medium_op : ℕ
  medium_a : ℤ
  medium_b : ℤ
  hard_type : ℕ
  hard_op_is_add : Bool
  hard_a : ℤ
  hard_b : ℤ
  hard_c : ℤ
  hard_quotient : ℤ
  hard_divisor : ℤ
  deriving DecidableEq

/-- `PuzzleGenerator._generate_easy_puzzle` with its draws explicit. -/
def generate_easy_puzzle (d : RandomDraws) : Puzzle :=
  if d.easy_op_is_add then
    ⟨toString d.easy_a ++ " + " ++ toString d.easy_b, d.easy_a + d.easy_b, "Easy"⟩
  else
    ⟨toString d.easy_a ++ " - " ++ toString d.easy_b, d.easy_a - d.easy_b, "Easy"⟩

/-- `PuzzleGenerator._generate_medium_puzzle`: `medium_op` encodes
`random.choice` over +, -, * as 0, 1, anything else. -/
def generate_medium_puzzle (d : RandomDraws) : Puzzle :=
  if d.medium_op = 0 then
    ⟨toString d.medium_a ++ " + " ++ toString d.medium_b, d.medium_a + d.medium_b, "Medium"⟩
  else if d.medium_op = 1 then
    ⟨toString d.medium_a ++ " - " ++ toString d.medium_b, d.medium_a - d.medium_b, "Medium"⟩
  else
    ⟨toString d.medium_a ++ " × " ++ toString d.medium_b, d.medium_a * d.medium_b, "Medium"⟩

/-- `PuzzleGenerator._generate_hard_puzzle`: `hard_type` encodes
`random.choice` over multi_step, large_numbers, division as 0, 1,
anything else. -/
def generate_hard_puzzle (d : RandomDraws) : Puzzle :=
  if d.hard_type = 0 then
    ⟨"(" ++ toString d.hard_a ++ " + " ++ toString d.hard_b ++ ") × " ++ toString d.hard_c,
      (d.hard_a + d.hard_b) * d.hard_c, "Hard"⟩
  else if d.hard_type = 1 then
    if d.hard_op_is_add then
      ⟨toString d.hard_a ++ " + " ++ toString d.hard_b, d.hard_a + d.hard_b, "Hard"⟩
    else
      ⟨toString d.hard_a ++ " - " ++ toString d.hard_b, d.hard_a - d.hard_b, "Hard"⟩
  else
    ⟨toString (d.hard_quotient * d.hard_divisor) ++ " ÷ " ++ toString d.hard_divisor,
      d.hard_quotient, "Hard"⟩

/-- The `self.operations` dict of `PuzzleGenerator.__init__`: a lookup
from difficulty label to puzzle body. -/
def operations (difficulty : String) : Option (RandomDraws → Puzzle) :=
  if difficulty = "Easy" then some generate_easy_puzzle
  else if difficulty = "Medium" then some generate_medium_puzzle
  else if difficulty = "Hard" then some generate_hard_puzzle
  else none

/-- `PuzzleGenerator.generate_puzzle`: raises ValueError on an unknown
label, embedded as `Except.error` with the source's message. -/
def generate_puzzle (difficulty : String) (d : RandomDraws) : Except String Puzzle :=
  match operations difficulty with
  | none => Except.error ("Unknown difficulty: " ++ difficulty)
  | some f => Except.ok (f d)

/-- The per-turn reward/penalty delta as the spec describes it: +2 for a
correct answer within 5 seconds, +1 for a correct slow answer, -3 for an
incorrect answer. Spec-side definition; `update_performance` is proved to
refine it below. -/
def spec_delta (is_correct : Bool) (response_time : ℚ) : ℚ :=
  if is_correct then (if response_time ≤ 5 then 2 else 1) else -3

/-- The rationale classification per branch, as the spec describes it.
Spec-side definition; `update_performance` is proved to refine it below. -/
def spec_rationale (is_correct : Bool) (response_time : ℚ) : String :=
  if is_correct then
    (if response_time ≤ 5 then "High Fluency - Correct answer with quick response"
     else "Accuracy - Correct but slow response")
  else "Inaccurate - Incorrect answer indicates knowledge gap"

/-! Characterisation lemmas: each observable of `update_performance` in
terms of `spec_delta`, `spec_rationale` and `check_difficulty_transition`. -/

lemma update_fst (e : AdaptiveEngine) (b : Bool) (t : ℚ) :
    (update_performance e b t).1 =
      (check_difficulty_transition
        ⟨(e.p_score + spec_delta b t) * decay_factor, e.current_difficulty_index⟩).1 := by
  cases b <;> by_cases h : t ≤ 5 <;>
    simp [update_performance, spec_delta, h, sub_eq_add_neg]

lemma update_transition (e : AdaptiveEngine) (b : Bool) (t : ℚ) :
    (update_performance e b t).2.transition_occurred =
      (check_difficulty_transition
        ⟨(e.p_score + spec_delta b t) * decay_factor, e.current_difficulty_index⟩).2 := by
  cases b <;> by_cases h : t ≤ 5 <;>
    simp [update_performance, spec_delta, h, sub_eq_add_neg]

lemma update_new_score (e : AdaptiveEngine) (b : Bool) (t : ℚ) :
    (update_performance e b t).2.new_score = (update_performance e b t).1.p_score := by
  cases b <;> by_cases h : t ≤ 5 <;>
    simp [update_performance, h]

lemma update_old_score (e : AdaptiveEngine) (b : Bool) (t : ℚ) :
    (update_performance e b t).2.old_score = e.p_score := by
  cases b <;> by_cases h : t ≤ 5 <;>
    simp [update_performance, h]

lemma update_score_change (e : AdaptiveEngine) (b : Bool) (t : ℚ) :
    (update_performance e b t).2.score_change =
      (update_performance e b t).1.p_score - e.p_score * decay_factor := by
  cases b <;> by_cases h : t ≤ 5 <;>
    simp [update_performance, h]

lemma update_old_difficulty (e : AdaptiveEngine) (b : Bool) (t : ℚ) :
    (update_performance e b t).2.old_difficulty = current_difficulty e := by
  cases b <;> by_cases h : t ≤ 5 <;>
    simp [update_performance, h]

lemma update_new_difficulty (e : AdaptiveEngine) (b : Bool) (t : ℚ) :
    (update_performance e b t).2.new_difficulty =
      current_difficulty (update_performance e b t).1 := by
  cases b <;> by_cases h : t ≤ 5 <;>
    simp [update_performance, h]

lemma update_rationale (e : AdaptiveEngine) (b : Bool) (t : ℚ) :
    (update_performance e b t).2.rationale = spec_rationale b t := by
  cases b <;> by_cases h : t ≤ 5 <;>
    simp [update_performance, spec_rationale, h]

/-! Case lemmas for `check_difficulty_transition`. -/

lemma check_increase (e : AdaptiveEngine) (h1 : 5 ≤ e.p_score)
    (h2 : e.current_difficulty_index < 2) :
    check_difficulty_transition e = (⟨0, e.current_difficulty_index + 1⟩, true) := by
  simp [check_difficulty_transition, difficulty_levels, h1, h2]

lemma check_decrease (e : AdaptiveEngine) (h1 : e.p_score ≤ -3)
    (h2 : 0 < e.current_difficulty_index) :
    check_difficulty_transition e = (⟨0, e.current_difficulty_index - 1⟩, true) := by
  have hn : ¬(5 : ℚ) ≤ e.p_score := by linarith
  simp [check_difficulty_transition, difficulty_levels, hn, h1, h2]

lemma check_none (e : AdaptiveEngine)
    (h1 : ¬(5 ≤ e.p_score ∧ e.current_difficulty_index < 2))
    (h2 : ¬(e.p_score ≤ -3 ∧ 0 < e.current_difficulty_index)) :
    check_difficulty_transition e = (e, false) := by
  simp only [check_difficulty_transition, difficulty_levels]
  rw [if_neg, if_neg]
  · simpa using h2
  · simpa using h1

lemma update_fst_of_no_transition (e : AdaptiveEngine) (b : Bool) (t : ℚ)
    (h : (update_performance e b t).2.transition_occurred = false) :
    (update_performance e b t).1 =
      ⟨(e.p_score + spec_delta b t) * decay_factor, e.current_difficulty_index⟩ := by
  by_cases h1 : 5 ≤ (e.p_score + spec_delta b t) * decay_factor ∧
      e.current_difficulty_index < 2
  · exfalso
    have hu := update_transition e b t
    rw [check_increase ⟨(e.p_score + spec_delta b t) * decay_factor,
      e.current_difficulty_index⟩ h1.1 h1.2, h] at hu
    simp at hu
  by_cases h2 : (e.p_score + spec_delta b t) * decay_factor ≤ -3 ∧
      0 < e.current_difficulty_index
  · exfalso
    have hu := update_transition e b t
    rw [check_decrease ⟨(e.p_score + spec_delta b t) * decay_factor,
      e.current_difficulty_index⟩ h2.1 h2.2, h] at hu
    simp at hu
  rw [update_fst, check_none ⟨(e.p_score + spec_delta b t) * decay_factor,
    e.current_difficulty_index⟩ h1 h2]

lemma update_pscore_zero_of_transition (e : AdaptiveEngine) (b : Bool) (t : ℚ)
    (h : (update_performance e b t).2.transition_occurred = true) :
    (update_performance e b t).1.p_score = 0 := by
  by_cases h1 : 5 ≤ (e.p_score + spec_delta b t) * decay_factor ∧
      e.current_difficulty_index < 2
  · rw [update_fst, check_increase ⟨(e.p_score + spec_delta b t) * decay_factor,
      e.current_difficulty_index⟩ h1.1 h1.2]
  by_cases h2 : (e.p_score + spec_delta b t) * decay_factor ≤ -3 ∧
      0 < e.current_difficulty_index
  · rw [update_fst, check_decrease ⟨(e.p_score + spec_delta b t) * decay_factor,
      e.current_difficulty_index⟩ h2.1 h2.2]
  exfalso
  have hu := update_transition e b t
  rw [check_none ⟨(e.p_score + spec_delta b t) * decay_factor,
    e.current_difficulty_index⟩ h1 h2, h] at hu
  simp at hu

/-- C1: after the decayed score is computed, the transition check of an
update call behaves exactly as specified: score >= 5.0 away from the top
level advances the index by one and resets the score to 0.0 with
transitionOccurred true; otherwise score <= -3.0 away from the bottom
level decreases the index by one and resets the score to 0.0 with
transitionOccurred true; otherwise state is left as computed and
transitionOccurred is false. The increase check is evaluated first. -/
theorem C1_transition_check_behaviour (e : AdaptiveEngine) (b : Bool) (t : ℚ) :
    (5 ≤ (e.p_score + spec_delta b t) * decay_factor ∧ e.current_difficulty_index < 2 →
      (update_performance e b t).1 = ⟨0, e.current_difficulty_index + 1⟩ ∧
      (update_performance e b t).2.transition_occurred = true) ∧
    (¬(5 ≤ (e.p_score + spec_delta b t) * decay_factor ∧ e.current_difficulty_index < 2) →
      ((e.p_score + spec_delta b t) * decay_factor ≤ -3 ∧ 0 < e.current_difficulty_index →
        (update_performance e b t).1 = ⟨0, e.current_difficulty_index - 1⟩ ∧
        (update_performance e b t).2.transition_occurred = true) ∧
      (¬((e.p_score + spec_delta b t) * decay_factor ≤ -3 ∧ 0 < e.current_difficulty_index) →
        (update_performance e b t).1 =
          ⟨(e.p_score + spec_delta b t) * decay_factor, e.current_difficulty_index⟩ ∧
        (update_performance e b t).2.transition_occurred = false)) := by
  rw [update_fst, update_transition]
  refine ⟨fun h => ?_, fun h1 => ⟨fun h => ?_, fun h2 => ?_⟩⟩
  · rw [check_increase ⟨(e.p_score + spec_delta b t) * decay_factor,
      e.current_difficulty_index⟩ h.1 h.2]
    exact ⟨rfl, rfl⟩
  · rw [check_decrease ⟨(e.p_score + spec_delta b t) * decay_factor,
      e.current_difficulty_index⟩ h.1 h.2]
    exact ⟨rfl, rfl⟩
  · rw [check_none ⟨(e.p_score + spec_delta b t) * decay_factor,
      e.current_difficulty_index⟩ h1 h2]
    exact ⟨rfl, rfl⟩

/-- C1 witness: concrete instances exercising all three branches. -/
theorem C1_transition_check_behaviour_witness :
    ((update_performance ⟨10, 0⟩ true 2).1 = ⟨0, 1⟩ ∧
      (update_performance ⟨10, 0⟩ true 2).2.transition_occurred = true) ∧
    ((update_performance ⟨-10, 1⟩ false 1).1 = ⟨0, 0⟩ ∧
      (update_performance ⟨-10, 1⟩ false 1).2.transition_occurred = true) ∧
    ((update_performance ⟨0, 0⟩ true 2).1 = ⟨9 / 5, 0⟩ ∧
      (update_performance ⟨0, 0⟩ true 2).2.transition_occurred = false) := by
  refine ⟨(C1_transition_check_behaviour ⟨10, 0⟩ true 2).1 ⟨by norm_num [spec_delta, decay_factor], by norm_num⟩,
    ((C1_transition_check_behaviour ⟨-10, 1⟩ false 1).2 (by norm_num [spec_delta, decay_factor])).1
      ⟨by norm_num [spec_delta, decay_factor], by norm_num⟩, ?_⟩
  have h := ((C1_transition_check_behaviour ⟨0, 0⟩ true 2).2
      (by norm_num [spec_delta, decay_factor])).2
      (by norm_num [spec_delta, decay_factor])
  constructor
  · rw [h.1]
    norm_num [spec_delta, decay_factor]
  · exact h.2

/-- C2: the decay factor 0.9 is applied exactly once per update call,
after the delta and before the transition check, on every turn: the
call's final state and transition flag equal the transition check
applied to exactly (previousScore + delta) * 0.9, including turns where
a transition then fires; and whenever no transition fires, the stored
score (and the reported new score) equals (previousScore + delta) * 0.9. -/
theorem C2_decay_once_per_update (e : AdaptiveEngine) (b : Bool) (t : ℚ) :
    ((update_performance e b t).1, (update_performance e b t).2.transition_occurred) =
      check_difficulty_transition
        ⟨(e.p_score + spec_delta b t) * decay_factor, e.current_difficulty_index⟩ ∧
    ((update_performance e b t).2.transition_occurred = false →
      (update_performance e b t).1.p_score = (e.p_score + spec_delta b t) * decay_factor ∧
      (update_performance e b t).2.new_score = (e.p_score + spec_delta b t) * decay_factor) := by
  constructor
  · rw [update_fst, update_transition]
  · intro h
    have hfst := update_fst_of_no_transition e b t h
    exact ⟨by rw [hfst], by rw [update_new_score, hfst]⟩

/-- C2 witness: the first fast correct answer from the initial state is
the check applied to the decayed (0 + 2) * 0.9 = 1.8 with no transition,
and a fast correct answer at score 10 is the check applied to the
decayed (10 + 2) * 0.9, a turn on which a transition fires. -/
theorem C2_decay_once_per_update_witness :
    ((update_performance initEngine true 2).1,
        (update_performance initEngine true 2).2.transition_occurred) =
      check_difficulty_transition ⟨(0 + 2) * decay_factor, 0⟩ ∧
    ((update_performance ⟨10, 0⟩ true 2).1,
        (update_performance ⟨10, 0⟩ true 2).2.transition_occurred) =
      check_difficulty_transition ⟨(10 + 2) * decay_factor, 0⟩ ∧
    (update_performance ⟨10, 0⟩ true 2).2.transition_occurred = true ∧
    (update_performance initEngine true 2).2.transition_occurred = false ∧
    (update_performance initEngine true 2).1.p_score = 9 / 5 ∧
    (update_performance initEngine true 2).2.new_score = 9 / 5 := by
  have h := C2_decay_once_per_update initEngine true 2
  have hT := C2_decay_once_per_update (⟨10, 0⟩ : AdaptiveEngine) true 2
  have ht : (update_performance initEngine true 2).2.transition_occurred = false := by
    rw [update_transition, check_none]
    · norm_num [initEngine, spec_delta, decay_factor]
    · norm_num [initEngine, spec_delta, decay_factor]
  have htT : (update_performance ⟨10, 0⟩ true 2).2.transition_occurred = true := by
    rw [update_transition, check_increase]
    · norm_num [spec_delta, decay_factor]
    · norm_num
  refine ⟨?_, ?_, htT, ht, ?_, ?_⟩
  · have e1 : (initEngine.p_score + spec_delta true 2) * decay_factor =
        (0 + 2) * decay_factor := by
      norm_num [initEngine, spec_delta]
    rw [← e1]
    exact h.1
  · have e1 : ((⟨10, 0⟩ : AdaptiveEngine).p_score + spec_delta true 2) * decay_factor =
        (10 + 2) * decay_factor := by
      norm_num [spec_delta]
    rw [← e1]
    exact hT.1
  · rw [(h.2 ht).1]
    norm_num [spec_delta, decay_factor, initEngine]
  · rw [(h.2 ht).2]
    norm_num [spec_delta, decay_factor, initEngine]

/-- C3: classification of every update call: correct and t <= 5.0 gives
delta +2 with the HighFluency rationale; correct and t > 5.0 gives delta
+1 with the Accuracy rationale; incorrect gives delta -3 with the
Inaccurate rationale regardless of t. The delta is pinned by showing the
call equals the transition check applied to the decayed score. -/
theorem C3_delta_and_rationale (e : AdaptiveEngine) (b : Bool) (t : ℚ) :
    (b = true → t ≤ 5 →
      (update_performance e b t).2.rationale =
        "High Fluency - Correct answer with quick response" ∧
      ((update_performance e b t).1, (update_performance e b t).2.transition_occurred) =
        check_difficulty_transition
          ⟨(e.p_score + 2) * decay_factor, e.current_difficulty_index⟩) ∧
    (b = true → ¬t ≤ 5 →
      (update_performance e b t).2.rationale = "Accuracy - Correct but slow response" ∧
      ((update_performance e b t).1, (update_performance e b t).2.transition_occurred) =
        check_difficulty_transition
          ⟨(e.p_score + 1) * decay_factor, e.current_difficulty_index⟩) ∧
    (b = false →
      (update_performance e b t).2.rationale =
        "Inaccurate - Incorrect answer indicates knowledge gap" ∧
      ((update_performance e b t).1, (update_performance e b t).2.transition_occurred) =
        check_difficulty_transition
          ⟨(e.p_score + -3) * decay_factor, e.current_difficulty_index⟩) := by
  refine ⟨fun hb ht => ?_, fun hb ht => ?_, fun hb => ?_⟩
  · subst hb
    rw [update_rationale, update_fst, update_transition]
    simp [spec_rationale, spec_delta, ht]
  · subst hb
    rw [update_rationale, update_fst, update_transition]
    simp [spec_rationale, spec_delta, ht]
  · subst hb
    rw [update_rationale, update_fst, update_transition]
    simp [spec_rationale, spec_delta]

/-- C3 witness: concrete instances exercising all three branches,
including an incorrect answer with a fast time. -/
theorem C3_delta_and_rationale_witness :
    ((update_performance ⟨1, 1⟩ true 3).2.rationale =
      "High Fluency - Correct answer with quick response" ∧
      ((update_performance ⟨1, 1⟩ true 3).1,
        (update_performance ⟨1, 1⟩ true 3).2.transition_occurred) =
        check_difficulty_transition ⟨(1 + 2) * decay_factor, 1⟩) ∧
    ((update_performance ⟨1, 1⟩ true 7).2.rationale =
      "Accuracy - Correct but slow response" ∧
      ((update_performance ⟨1, 1⟩ true 7).1,
        (update_performance ⟨1, 1⟩ true 7).2.transition_occurred) =
        check_difficulty_transition ⟨(1 + 1) * decay_factor, 1⟩) ∧
    ((update_performance ⟨1, 1⟩ false 2).2.rationale =
      "Inaccurate - Incorrect answer indicates knowledge gap" ∧
      ((update_performance ⟨1, 1⟩ false 2).1,
        (update_performance ⟨1, 1⟩ false 2).2.transition_occurred) =
        check_difficulty_transition ⟨(1 + -3) * decay_factor, 1⟩) :=
  ⟨(C3_delta_and_rationale ⟨1, 1⟩ true 3).1 rfl (by norm_num),
    (C3_delta_and_rationale ⟨1, 1⟩ true 7).2.1 rfl (by norm_num),
    (C3_delta_and_rationale ⟨1, 1⟩ false 2).2.2 rfl⟩

/-- C4 counterexample: on the fourth consecutive fast correct answer
from the initial state a transition fires, and the reported scoreChange
is -21951/5000 = -4.3902, not the decayed delta 2 * 0.9 = 1.8. -/
theorem C4_counterexample :
    (update_performance (run initEngine [(true, 2), (true, 2), (true, 2)])
      true 2).2.transition_occurred = true ∧
    (update_performance (run initEngine [(true, 2), (true, 2), (true, 2)])
      true 2).2.score_change = -21951 / 5000 ∧
    spec_delta true 2 * decay_factor = 9 / 5 ∧
    (-21951 / 5000 : ℚ) ≠ 9 / 5 := by
  refine ⟨?_, ?_, by norm_num [spec_delta, decay_factor], by norm_num⟩ <;>
    norm_num [run, update_performance, check_difficulty_transition, initEngine,
      decay_factor, difficulty_levels]

/-- C4 amended: scoreChange always equals newScore - previousScore * 0.9.
On calls with no transition this equals delta * 0.9; on calls where a
transition fires the score has been reset, so scoreChange equals
-(previousScore * 0.9) instead of delta * 0.9. -/
theorem C4_score_change_formula (e : AdaptiveEngine) (b : Bool) (t : ℚ) :
    (update_performance e b t).2.score_change =
      (update_performance e b t).2.new_score -
        (update_performance e b t).2.old_score * decay_factor ∧
    ((update_performance e b t).2.transition_occurred = false →
      (update_performance e b t).2.score_change = spec_delta b t * decay_factor) ∧
    ((update_performance e b t).2.transition_occurred = true →
      (update_performance e b t).2.score_change = -(e.p_score * decay_factor)) := by
  refine ⟨?_, fun h => ?_, fun h => ?_⟩
  · rw [update_score_change, update_new_score, update_old_score]
  · rw [update_score_change, update_fst_of_no_transition e b t h]
    show (e.p_score + spec_delta b t) * decay_factor - e.p_score * decay_factor =
      spec_delta b t * decay_factor
    ring
  · rw [update_score_change, update_pscore_zero_of_transition e b t h]
    ring

/-- C4 witness: a no-transition call reports scoreChange 1.8 and a
transition call from score 10 reports scoreChange -9. -/
theorem C4_score_change_formula_witness :
    (update_performance initEngine true 2).2.score_change = 9 / 5 ∧
    (update_performance ⟨10, 0⟩ true 2).2.score_change = -9 := by
  have ht1 : (update_performance initEngine true 2).2.transition_occurred = false := by
    rw [update_transition, check_none]
    · norm_num [initEngine, spec_delta, decay_factor]
    · norm_num [initEngine, spec_delta, decay_factor]
  have ht2 : (update_performance ⟨10, 0⟩ true 2).2.transition_occurred = true := by
    rw [update_transition, check_increase]
    · norm_num [spec_delta, decay_factor]
    · norm_num
  constructor
  · rw [(C4_score_change_formula initEngine true 2).2.1 ht1]
    norm_num [initEngine, spec_delta, decay_factor]
  · rw [(C4_score_change_formula ⟨10, 0⟩ true 2).2.2 ht2]
    norm_num [decay_factor]

/-- C5 counterexample: update(true, -1) is classified HighFluency with
delta +2 (new score (0 + 2) * 0.9 = 1.8 from the initial state), not
Accuracy with delta +1 as the claim states. -/
theorem C5_counterexample :
    (update_performance initEngine true (-1)).2.rationale =
      "High Fluency - Correct answer with quick response" ∧
    (update_performance initEngine true (-1)).2.rationale ≠
      "Accuracy - Correct but slow response" ∧
    (update_performance initEngine true (-1)).2.new_score = 9 / 5 := by
  have ht : (update_performance initEngine true (-1)).2.transition_occurred = false := by
    rw [update_transition, check_none]
    · norm_num [initEngine, spec_delta, decay_factor]
    · norm_num [initEngine, spec_delta, decay_factor]
  refine ⟨?_, ?_, ?_⟩
  · rw [update_rationale]
    norm_num [spec_rationale]
  · rw [update_rationale]
    norm_num [spec_rationale]
    decide
  · rw [update_new_score, update_fst_of_no_transition initEngine true (-1) ht]
    norm_num [initEngine, spec_delta, decay_factor]

/-- C5 amended: a negative response time is treated as fast under the
fluency test: the call classifies the outcome as HighFluency with delta
+2, and no error is raised (the call is total). -/
theorem C5_negative_time_is_fast (e : AdaptiveEngine) (t : ℚ) (h : t < 0) :
    (update_performance e true t).2.rationale =
      "High Fluency - Correct answer with quick response" ∧
    ((update_performance e true t).1, (update_performance e true t).2.transition_occurred) =
      check_difficulty_transition
        ⟨(e.p_score + 2) * decay_factor, e.current_difficulty_index⟩ := by
  have ht : t ≤ 5 := by linarith
  rw [update_rationale, update_fst, update_transition]
  simp [spec_rationale, spec_delta, ht]

/-- C5 amended witness: the concrete call update(true, -1). -/
theorem C5_negative_time_is_fast_witness :
    (-1 : ℚ) < 0 ∧
    ((update_performance initEngine true (-1)).2.rationale =
      "High Fluency - Correct answer with quick response" ∧
    ((update_performance initEngine true (-1)).1,
      (update_performance initEngine true (-1)).2.transition_occurred) =
      check_difficulty_transition ⟨(0 + 2) * decay_factor, 0⟩) :=
  ⟨by norm_num, C5_negative_time_is_fast initEngine (-1) (by norm_num)⟩

lemma check_idx_le (e : AdaptiveEngine) (h : e.current_difficulty_index ≤ 2) :
    (check_difficulty_transition e).1.current_difficulty_index ≤ 2 := by
  unfold check_difficulty_transition
  split_ifs with h1 h2
  · have h2' : e.current_difficulty_index < 2 := by
      simpa [difficulty_levels] using h1.2
    show e.current_difficulty_index + 1 ≤ 2
    omega
  · show e.current_difficulty_index - 1 ≤ 2
    omega
  · exact h

lemma update_idx_le (e : AdaptiveEngine) (b : Bool) (t : ℚ)
    (h : e.current_difficulty_index ≤ 2) :
    (update_performance e b t).1.current_difficulty_index ≤ 2 := by
  rw [update_fst]
  exact check_idx_le _ h

lemma run_idx_le (l : List (Bool × ℚ)) (e : AdaptiveEngine)
    (h : e.current_difficulty_index ≤ 2) :
    (run e l).current_difficulty_index ≤ 2 := by
  induction l generalizing e with
  | nil => exact h
  | cons o rest ih =>
      simp only [run]
      exact ih _ (update_idx_le e o.1 o.2 h)

/-- C6: from the initial state (Easy, 0.0), every sequence of update
calls keeps the difficulty index within [0, 2]: the index is a natural
number (never below 0) and never exceeds 2. -/
theorem C6_difficulty_index_in_range (l : List (Bool × ℚ)) :
    (run initEngine l).current_difficulty_index ≤ 2 :=
  run_idx_le l initEngine (by norm_num [initEngine])

/-- C7: at the highest level an increase condition changes nothing and
does not reset the score, which therefore stays at the decayed value
(in particular at or above 5.0); symmetrically at the lowest level a
decrease condition leaves the difficulty and the score unreset. -/
theorem C7_no_clamp_at_bounds (e : AdaptiveEngine) (b : Bool) (t : ℚ) :
    (e.current_difficulty_index = 2 →
      5 ≤ (e.p_score + spec_delta b t) * decay_factor →
      (update_performance e b t).1 =
        ⟨(e.p_score + spec_delta b t) * decay_factor, 2⟩ ∧
      (update_performance e b t).2.transition_occurred = false ∧
      5 ≤ (update_performance e b t).1.p_score) ∧
    (e.current_difficulty_index = 0 →
      (e.p_score + spec_delta b t) * decay_factor ≤ -3 →
      (update_performance e b t).1 =
        ⟨(e.p_score + spec_delta b t) * decay_factor, 0⟩ ∧
      (update_performance e b t).2.transition_occurred = false ∧
      (update_performance e b t).1.p_score ≤ -3) := by
  constructor
  · intro hi hs
    have h1 : ¬(5 ≤ (e.p_score + spec_delta b t) * decay_factor ∧
        e.current_difficulty_index < 2) := by
      rw [hi]
      intro hh
      exact absurd hh.2 (lt_irrefl 2)
    have h2 : ¬((e.p_score + spec_delta b t) * decay_factor ≤ -3 ∧
        0 < e.current_difficulty_index) := by
      intro hh
      linarith [hh.1]
    have hfst : (update_performance e b t).1 =
        ⟨(e.p_score + spec_delta b t) * decay_factor, e.current_difficulty_index⟩ := by
      rw [update_fst, check_none ⟨(e.p_score + spec_delta b t) * decay_factor,
        e.current_difficulty_index⟩ h1 h2]
    have htr : (update_performance e b t).2.transition_occurred = false := by
      rw [update_transition, check_none ⟨(e.p_score + spec_delta b t) * decay_factor,
        e.current_difficulty_index⟩ h1 h2]
    refine ⟨by rw [hfst, hi], htr, ?_⟩
    rw [hfst]
    exact hs
  · intro hi hs
    have h1 : ¬(5 ≤ (e.p_score + spec_delta b t) * decay_factor ∧
        e.current_difficulty_index < 2) := by
      intro hh
      linarith [hh.1]
    have h2 : ¬((e.p_score + spec_delta b t) * decay_factor ≤ -3 ∧
        0 < e.current_difficulty_index) := by
      rw [hi]
      intro hh
      exact absurd hh.2 (lt_irrefl 0)
    have hfst : (update_performance e b t).1 =
        ⟨(e.p_score + spec_delta b t) * decay_factor, e.current_difficulty_index⟩ := by
      rw [update_fst, check_none ⟨(e.p_score + spec_delta b t) * decay_factor,
        e.current_difficulty_index⟩ h1 h2]
    have htr : (update_performance e b t).2.transition_occurred = false := by
      rw [update_transition, check_none ⟨(e.p_score + spec_delta b t) * decay_factor,
        e.current_difficulty_index⟩ h1 h2]
    refine ⟨by rw [hfst, hi], htr, ?_⟩
    rw [hfst]
    exact hs

/-- C7 witness: at Hard with score 10 a fast correct answer leaves the
state at the decayed 10.8, and at Easy with score -10 an incorrect
answer leaves the state at the decayed -11.7. -/
theorem C7_no_clamp_at_bounds_witness :
    ((update_performance ⟨10, 2⟩ true 2).1 = ⟨54 / 5, 2⟩ ∧
      (update_performance ⟨10, 2⟩ true 2).2.transition_occurred = false ∧
      5 ≤ (update_performance ⟨10, 2⟩ true 2).1.p_score) ∧
    ((update_performance ⟨-10, 0⟩ false 1).1 = ⟨-117 / 10, 0⟩ ∧
      (update_performance ⟨-10, 0⟩ false 1).2.transition_occurred = false ∧
      (update_performance ⟨-10, 0⟩ false 1).1.p_score ≤ -3) := by
  constructor
  · have h := (C7_no_clamp_at_bounds ⟨10, 2⟩ true 2).1 rfl
      (by norm_num [spec_delta, decay_factor])
    refine ⟨?_, h.2.1, h.2.2⟩
    rw [h.1]
    norm_num [spec_delta, decay_factor]
  · have h := (C7_no_clamp_at_bounds ⟨-10, 0⟩ false 1).2 rfl
      (by norm_num [spec_delta, decay_factor])
    refine ⟨?_, h.2.1, h.2.2⟩
    rw [h.1]
    norm_num [spec_delta, decay_factor]

lemma round_half_even_close (q : ℚ) : |(round_half_even q : ℚ) - q| ≤ 1 / 2 := by
  have h0 : ((Int.floor q : ℤ) : ℚ) ≤ q := Int.floor_le q
  have h1 : q < (Int.floor q : ℚ) + 1 := Int.lt_floor_add_one q
  unfold round_half_even
  split_ifs with ha hb hc <;> (rw [abs_le]; constructor) <;> push_cast <;> linarith

lemma round2_close (q : ℚ) : |round2 q - q| ≤ 1 / 200 := by
  have h := round_half_even_close (q * 100)
  have heq : round2 q - q = ((round_half_even (q * 100) : ℚ) - q * 100) / 100 := by
    unfold round2
    ring
  rw [heq, abs_div, abs_of_pos (show (0 : ℚ) < 100 by norm_num)]
  have h2 : |(round_half_even (q * 100) : ℚ) - q * 100| / 100 ≤ (1 / 2) / 100 :=
    (div_le_div_iff_of_pos_right (by norm_num)).mpr h
  linarith

/-- C8: status is a pure read of the state: it returns the stored score
rounded to 2 decimal places (an integer number of hundredths within
1/200 of the stored full-precision score, which itself is untouched),
the current difficulty label and index, increase threshold 5.0 and
decrease threshold -3.0. -/
theorem C8_status_pure_read (e : AdaptiveEngine) :
    get_status e = ⟨round2 e.p_score, current_difficulty e,
      e.current_difficulty_index, 5, -3⟩ ∧
    (∃ n : ℤ, (get_status e).p_score = (n : ℚ) / 100) ∧
    |(get_status e).p_score - e.p_score| ≤ 1 / 200 :=
  ⟨rfl, ⟨round_half_even (e.p_score * 100), rfl⟩, round2_close e.p_score⟩

/-- C9: requesting a puzzle fails, with the invalid-difficulty error,
exactly when the label is not one of Easy, Medium, Hard; the update
operation itself never fails: it is total and always produces one of the
three defined rationale classifications, for every boolean and every
rational response time. -/
theorem C9_error_conditions (difficulty : String) (d : RandomDraws)
    (e : AdaptiveEngine) (b : Bool) (t : ℚ) :
    (generate_puzzle difficulty d =
        Except.error ("Unknown difficulty: " ++ difficulty) ↔
      ¬(difficulty = "Easy" ∨ difficulty = "Medium" ∨ difficulty = "Hard")) ∧
    ((update_performance e b t).2.rationale =
        "High Fluency - Correct answer with quick response" ∨
      (update_performance e b t).2.rationale = "Accuracy - Correct but slow response" ∨
      (update_performance e b t).2.rationale =
        "Inaccurate - Incorrect answer indicates knowledge gap") := by
  constructor
  · unfold generate_puzzle operations
    by_cases h1 : difficulty = "Easy"
    · simp [h1]
    · by_cases h2 : difficulty = "Medium"
      · simp [h1, h2]
      · by_cases h3 : difficulty = "Hard"
        · simp [h1, h2, h3]
        · simp [h1, h2, h3]
  · rw [update_rationale]
    unfold spec_rationale
    by_cases hb : b <;> by_cases ht : t ≤ 5 <;> simp [hb, ht]

/-- C10: for every update call from a state whose index is in range,
transitionOccurred is true exactly when the returned new difficulty
differs from the returned previous difficulty, equivalently exactly when
the stored index changes, and the returned newScore always equals the
stored score immediately after the call. -/
theorem C10_transition_iff_difficulty_changes (e : AdaptiveEngine) (b : Bool) (t : ℚ)
    (h : e.current_difficulty_index ≤ 2) :
    ((update_performance e b t).2.transition_occurred = true ↔
      (update_performance e b t).2.new_difficulty ≠
        (update_performance e b t).2.old_difficulty) ∧
    ((update_performance e b t).2.transition_occurred = true ↔
      (update_performance e b t).1.current_difficulty_index ≠
        e.current_difficulty_index) ∧
    (update_performance e b t).2.new_score = (update_performance e b t).1.p_score := by
  have hns := update_new_score e b t
  rw [update_new_difficulty, update_old_difficulty]
  by_cases h1 : 5 ≤ (e.p_score + spec_delta b t) * decay_factor ∧
      e.current_difficulty_index < 2
  · have hfst : (update_performance e b t).1 = ⟨0, e.current_difficulty_index + 1⟩ := by
      rw [update_fst, check_increase ⟨(e.p_score + spec_delta b t) * decay_factor,
        e.current_difficulty_index⟩ h1.1 h1.2]
    have htr : (update_performance e b t).2.transition_occurred = true := by
      rw [update_transition, check_increase ⟨(e.p_score + spec_delta b t) * decay_factor,
        e.current_difficulty_index⟩ h1.1 h1.2]
    rw [hfst] at hns
    rw [hfst, htr]
    refine ⟨?_, by simp, hns⟩
    have h2 := h1.2
    set n := e.current_difficulty_index with hn
    interval_cases n <;> simp [current_difficulty, difficulty_levels, ← hn]
  by_cases h2 : (e.p_score + spec_delta b t) * decay_factor ≤ -3 ∧
      0 < e.current_difficulty_index
  · have hfst : (update_performance e b t).1 = ⟨0, e.current_difficulty_index - 1⟩ := by
      rw [update_fst, check_decrease ⟨(e.p_score + spec_delta b t) * decay_factor,
        e.current_difficulty_index⟩ h2.1 h2.2]
    have htr : (update_performance e b t).2.transition_occurred = true := by
      rw [update_transition, check_decrease ⟨(e.p_score + spec_delta b t) * decay_factor,
        e.current_difficulty_index⟩ h2.1 h2.2]
    rw [hfst] at hns
    rw [hfst, htr]
    have h0 := h2.2
    refine ⟨?_, by simp; omega, hns⟩
    set n := e.current_difficulty_index with hn
    interval_cases n <;> simp [current_difficulty, difficulty_levels, ← hn]
  · have hfst : (update_performance e b t).1 =
        ⟨(e.p_score + spec_delta b t) * decay_factor, e.current_difficulty_index⟩ := by
      rw [update_fst, check_none ⟨(e.p_score + spec_delta b t) * decay_factor,
        e.current_difficulty_index⟩ h1 h2]
    have htr : (update_performance e b t).2.transition_occurred = false := by
      rw [update_transition, check_none ⟨(e.p_score + spec_delta b t) * decay_factor,
        e.current_difficulty_index⟩ h1 h2]
    rw [hfst] at hns
    rw [hfst, htr]
    exact ⟨by simp [current_difficulty], by simp, hns⟩

/-- C10 witness: the first fast correct answer from the initial state
fires no transition, changes neither label nor index, and reports the
stored score. -/
theorem C10_transition_iff_difficulty_changes_witness :
    ((update_performance initEngine true 2).2.transition_occurred = true ↔
      (update_performance initEngine true 2).2.new_difficulty ≠
        (update_performance initEngine true 2).2.old_difficulty) ∧
    ((update_performance initEngine true 2).2.transition_occurred = true ↔
      (update_performance initEngine true 2).1.current_difficulty_index ≠
        initEngine.current_difficulty_index) ∧
    (update_performance initEngine true 2).2.new_score =
      (update_performance initEngine true 2).1.p_score :=
  C10_transition_iff_difficulty_changes initEngine true 2 (by norm_num [initEngine])

end AdaptiveLogic
